import Mathlib

/-!
Verification of the kosmos repository specification against a shallow
embedding of its source.

Embedded source files:
* the CRD schema string constants of pkg/kosmosctl/manifest
  (ClusterlinkCluster, ClusterlinkClusterNode, ClusterlinkNodeConfig);
* pkg/utils (CreateMergePatch, SetupSignalHandler, IsVirtualNode,
  GetClusterID, UpdateConfigMap, UpdateSecret);
* pkg/knode-manager/adapters/k8s/help.go (getSecrets, getConfigmaps,
  getPVCs).
-/

/-! ## CRD schema embedding

The manifest package publishes the OpenAPI v3 schemas of the Cluster,
ClusterNode and NodeConfig custom resources as YAML string constants.
The fragments relevant to the data contract are transcribed below as a
small schema AST, keeping the YAML property order and every default,
enum, format and required list. -/

/-- One OpenAPI v3 schema node, restricted to the shapes occurring in the
CRD manifests: strings (with optional format, default and enum), int32
integers, booleans with a default, objects with named properties, a
required list and an optional object default (given as key-value string
pairs), arrays, and string maps via additionalProperties. -/
inductive Schema where
  | str (format : Option String) (dflt : Option String) (enumVals : Option (List String))
  | int32
  | boolean (dflt : Bool)
  | object (props : List (String × Schema)) (required : List String)
      (dflt : Option (List (String × String)))
  | array (items : Schema)
  | mapOf (additional : Schema)

/-- Shorthand for a plain string schema node. -/
def Schema.plainStr : Schema := Schema.str none none none

/-- spec.properties of the Cluster CRD (manifest constant
ClusterlinkCluster), in manifest order. -/
def clusterSpecProps : List (String × Schema) :=
  [("bridgeCIDRs", Schema.object
      [("ip", Schema.plainStr), ("ip6", Schema.plainStr)] ["ip", "ip6"]
      (some [("ip", "220.0.0.0/8"), ("ip6", "9470::/16")])),
   ("cni", Schema.str none (some "calico") none),
   ("defaultNICName", Schema.str none (some "*") none),
   ("globalCIDRsMap", Schema.mapOf Schema.plainStr),
   ("imageRepository", Schema.plainStr),
   ("ipFamily", Schema.str none (some "all") none),
   ("kubeconfig", Schema.str (some "byte") none none),
   ("localCIDRs", Schema.object
      [("ip", Schema.plainStr), ("ip6", Schema.plainStr)] ["ip", "ip6"]
      (some [("ip", "210.0.0.0/8"), ("ip6", "9480::/16")])),
   ("namespace", Schema.str none (some "clusterlink-system") none),
   ("networkType", Schema.str none (some "p2p") (some ["p2p", "gateway"])),
   ("nicNodeNames", Schema.array (Schema.object
      [("interfaceName", Schema.plainStr),
       ("nodeName", Schema.array Schema.plainStr)]
      ["interfaceName", "nodeName"] none)),
   ("useIPPool", Schema.boolean false)]

/-- status.properties of the Cluster CRD. -/
def clusterStatusProps : List (String × Schema) :=
  [("podCIDRs", Schema.array Schema.plainStr),
   ("serviceCIDRs", Schema.array Schema.plainStr)]

/-- spec.properties of the ClusterNode CRD (manifest constant
ClusterlinkClusterNode), in manifest order. -/
def clusterNodeSpecProps : List (String × Schema) :=
  [("clusterName", Schema.plainStr),
   ("interfaceName", Schema.plainStr),
   ("ip", Schema.plainStr),
   ("ip6", Schema.plainStr),
   ("nodeName", Schema.plainStr),
   ("podCIDRs", Schema.array Schema.plainStr),
   ("roles", Schema.array Schema.plainStr)]

/-- spec.properties of the NodeConfig CRD (manifest constant
ClusterlinkNodeConfig), in manifest order. -/
def nodeConfigSpecProps : List (String × Schema) :=
  [("arps", Schema.array (Schema.object
      [("dev", Schema.plainStr), ("ip", Schema.plainStr), ("mac", Schema.plainStr)]
      ["dev", "ip", "mac"] none)),
   ("devices", Schema.array (Schema.object
      [("addr", Schema.plainStr), ("bindDev", Schema.plainStr), ("id", Schema.int32),
       ("mac", Schema.plainStr), ("name", Schema.plainStr), ("port", Schema.int32),
       ("type", Schema.plainStr)]
      ["addr", "bindDev", "id", "mac", "name", "port", "type"] none)),
   ("fdbs", Schema.array (Schema.object
      [("dev", Schema.plainStr), ("ip", Schema.plainStr), ("mac", Schema.plainStr)]
      ["dev", "ip", "mac"] none)),
   ("iptables", Schema.array (Schema.object
      [("chain", Schema.plainStr), ("rule", Schema.plainStr), ("table", Schema.plainStr)]
      ["chain", "rule", "table"] none)),
   ("routes", Schema.array (Schema.object
      [("cidr", Schema.plainStr), ("dev", Schema.plainStr), ("gw", Schema.plainStr)]
      ["cidr", "dev", "gw"] none))]

/-- status.properties of the NodeConfig CRD. -/
def nodeConfigStatusProps : List (String × Schema) :=
  [("lastChangeTime", Schema.str (some "date-time") none none),
   ("lastSyncTime", Schema.str (some "date-time") none none)]

/-- The per-item property names of an array-of-objects property of a CRD
spec, when the named property has that shape. -/
def entryFields (props : List (String × Schema)) (k : String) : Option (List String) :=
  match props.lookup k with
  | some (Schema.array (Schema.object itemProps _ _)) => some (itemProps.map Prod.fst)
  | _ => none

/-- The per-item required list of an array-of-objects property of a CRD
spec, when the named property has that shape. -/
def entryRequired (props : List (String × Schema)) (k : String) : Option (List String) :=
  match props.lookup k with
  | some (Schema.array (Schema.object _ req _)) => some req
  | _ => none

/-- The named property is a list of objects whose declared fields and
whose required fields are exactly the given set of names. -/
def entryFieldsMatch (props : List (String × Schema)) (k : String)
    (fields : List String) : Bool :=
  match entryFields props k, entryRequired props k with
  | some f, some r => decide (f.Perm fields) && decide (r.Perm fields)
  | _, _ => false

/-- A schema node that is a string of format date-time. -/
def isDateTime : Schema → Bool
  | Schema.str (some "date-time") _ _ => true
  | _ => false

/-- C1: the NodeConfig spec consists of exactly the five entry lists
devices, routes, fdbs, arps and iptables, and the per-entry declared and
required fields of each list are exactly the enumerated sets: a Device
has id, name, mac, bindDev, addr, port, type; a Route has cidr, dev, gw;
an FDB entry and an ARP entry each have dev, ip, mac; an IPTable rule
has table, chain, rule. -/
theorem nodeConfig_spec_five_entry_lists :
    (nodeConfigSpecProps.map Prod.fst).Perm ["devices", "routes", "fdbs", "arps", "iptables"]
    ∧ entryFieldsMatch nodeConfigSpecProps "devices"
        ["id", "name", "mac", "bindDev", "addr", "port", "type"] = true
    ∧ entryFieldsMatch nodeConfigSpecProps "routes" ["cidr", "dev", "gw"] = true
    ∧ entryFieldsMatch nodeConfigSpecProps "fdbs" ["dev", "ip", "mac"] = true
    ∧ entryFieldsMatch nodeConfigSpecProps "arps" ["dev", "ip", "mac"] = true
    ∧ entryFieldsMatch nodeConfigSpecProps "iptables" ["table", "chain", "rule"] = true := by
  refine ⟨by decide, by decide, by decide, by decide, by decide, by decide⟩

/-- C2: in the Cluster spec, the local CIDR pool defaults to 210.0.0.0/8
with IPv6 equivalent 9480::/16, the bridge pool defaults to 220.0.0.0/8
with IPv6 equivalent 9470::/16, and both blocks require the ip and ip6
components. -/
theorem cluster_cidr_pool_defaults :
    clusterSpecProps.lookup "localCIDRs" = some (Schema.object
      [("ip", Schema.plainStr), ("ip6", Schema.plainStr)] ["ip", "ip6"]
      (some [("ip", "210.0.0.0/8"), ("ip6", "9480::/16")]))
    ∧ clusterSpecProps.lookup "bridgeCIDRs" = some (Schema.object
      [("ip", Schema.plainStr), ("ip6", Schema.plainStr)] ["ip", "ip6"]
      (some [("ip", "220.0.0.0/8"), ("ip6", "9470::/16")])) :=
  ⟨rfl, rfl⟩

/-- C3: the networkType field of a Cluster admits exactly the two enum
values p2p and gateway and defaults to p2p when unset. -/
theorem cluster_networkType_enum :
    clusterSpecProps.lookup "networkType" =
      some (Schema.str none (some "p2p") (some ["p2p", "gateway"])) :=
  rfl

/-- C4: the NodeConfig status carries exactly two fields, lastChangeTime
and lastSyncTime, both of format date-time, and defines no other field,
in particular no structured failure-reason field. -/
theorem nodeConfig_status_two_timestamps :
    (nodeConfigStatusProps.filter (fun p => isDateTime p.2)).map Prod.fst
        = ["lastChangeTime", "lastSyncTime"]
    ∧ nodeConfigStatusProps.length = 2 := by
  exact ⟨rfl, rfl⟩

/-! ## pkg/utils embedding

The utils functions operate on corev1 objects; the fields those
functions read or write are embedded below. A Go map becomes an
association list (a nil map and an empty map are both the empty list),
a Go pointer becomes an Option, and a byte slice a list of bytes. -/

structure ObjectMeta where
  Name : String
  Namespace : String
  Labels : List (String × String)
  Annotations : List (String × String)
  ResourceVersion : String
deriving DecidableEq, Repr

structure Node where
  ObjectMeta : ObjectMeta
deriving DecidableEq, Repr

structure ConfigMap where
  ObjectMeta : ObjectMeta
  Immutable : Option Bool
  Data : List (String × String)
  BinaryData : List (String × List Nat)
deriving DecidableEq, Repr

structure Secret where
  ObjectMeta : ObjectMeta
  Immutable : Option Bool
  Data : List (String × List Nat)
  StringData : List (String × String)
  SecretType : String
deriving DecidableEq, Repr

/-- utils constant NodeType. -/
def NodeType : String := "type"

/-- utils constant KosmosKubeletLabel. -/
def KosmosKubeletLabel : String := "kosmos-kubelet"

/-- utils constant ClusterID. -/
def ClusterID : String := "clusterID"

/-- Embeds utils.IsVirtualNode; the argument is the Go node pointer, so
none is the nil pointer. An absent label key yields the map zero value
with exist = false. -/
def IsVirtualNode : Option Node → Bool
  | none => false
  | some node =>
    match node.ObjectMeta.Labels.lookup NodeType with
    | none => false
    | some valStr => valStr == KosmosKubeletLabel

/-- Embeds utils.GetClusterID; the argument is the Go node pointer, so
none is the nil pointer. -/
def GetClusterID : Option Node → String
  | none => ""
  | some node =>
    match node.ObjectMeta.Labels.lookup ClusterID with
    | none => ""
    | some clusterName => clusterName

/-- Embeds utils.UpdateConfigMap. The Go function mutates old through a
pointer and leaves new untouched; the state-passing embedding returns
the final values of both objects. -/
def UpdateConfigMap (old new : ConfigMap) : ConfigMap × ConfigMap :=
  ({ old with
      ObjectMeta := { old.ObjectMeta with Labels := new.ObjectMeta.Labels },
      Data := new.Data,
      BinaryData := new.BinaryData }, new)

/-- Embeds utils.UpdateSecret, in the same state-passing style. -/
def UpdateSecret (old new : Secret) : Secret × Secret :=
  ({ old with
      ObjectMeta := { old.ObjectMeta with Labels := new.ObjectMeta.Labels },
      Data := new.Data,
      StringData := new.StringData,
      SecretType := new.SecretType }, new)

/-! ## pkg/utils embedding: shutdown signal machinery

utils.SetupSignalHandler closes the package-level channel
onlyOneSignalHandler (a second close panics), registers SIGINT and
SIGTERM, and starts a goroutine that closes the returned stop channel
on the first signal and calls os.Exit(1) on the second. The state of
that machinery over one process lifetime is embedded as a record and
the calls and signal deliveries as transitions on it. -/

structure SignalState where
  onlyOneClosed : Bool
  stopClosed : Bool
  exited : Bool
deriving DecidableEq, Repr

/-- Process start: no channel closed, no signal seen. -/
def initialSignalState : SignalState := ⟨false, false, false⟩

/-- State right after the first successful SetupSignalHandler call. -/
def armedState : SignalState := ⟨true, false, false⟩

/-- Embeds utils.SetupSignalHandler: close(onlyOneSignalHandler) panics
when that channel is already closed; otherwise the handler is installed
and a fresh, open stop channel is returned. -/
def SetupSignalHandler (s : SignalState) : Except String SignalState :=
  if s.onlyOneClosed then Except.error "close of closed channel"
  else Except.ok { onlyOneClosed := true, stopClosed := false, exited := false }

/-- One SIGINT or SIGTERM delivered to the goroutine started by
SetupSignalHandler, paired with the number of close(stop) operations it
performs: the first signal closes the stop channel, the second makes the
goroutine call os.Exit(1), and no signal is observed before the handler
is installed or after exit. -/
def deliverSignal (s : SignalState) : SignalState × Nat :=
  if !s.onlyOneClosed || s.exited then (s, 0)
  else if !s.stopClosed then ({ s with stopClosed := true }, 1)
  else ({ s with exited := true }, 0)

/-- Delivery of n shutdown signals in sequence, accumulating the number
of close(stop) operations performed. -/
def deliverSignals (s : SignalState) : Nat → SignalState × Nat
  | 0 => (s, 0)
  | n + 1 =>
    let p := deliverSignal s
    let q := deliverSignals p.1 n
    (q.1, p.2 + q.2)

/-- Once the stop channel is closed, later signals never close it again. -/
theorem deliverSignals_count_zero_of_stopClosed (n : Nat) :
    ∀ s : SignalState, s.stopClosed = true → (deliverSignals s n).2 = 0 := by
  induction n with
  | zero => intro s _; rfl
  | succ n ih =>
    intro s h
    simp only [deliverSignals, deliverSignal]
    by_cases h1 : !s.onlyOneClosed || s.exited
    · simp [h1, ih s h]
    · simp [h1, h]
      exact ih _ rfl

/-- C7: shutdown signaling is exactly-once. SetupSignalHandler completes
successfully at most once per process: after any successful call, a
second call panics closing the already-closed onlyOneSignalHandler
channel. Over any number of delivered SIGINT or SIGTERM signals, the
stop channel is closed exactly once, on the first signal. -/
theorem setupSignalHandler_exactly_once :
    (∀ s s1 : SignalState, SetupSignalHandler s = Except.ok s1 →
      SetupSignalHandler s1 = Except.error "close of closed channel")
    ∧ (∀ n : Nat, (deliverSignals armedState n).2 = min n 1) := by
  constructor
  · intro s s1 h
    by_cases hc : s.onlyOneClosed
    · simp [SetupSignalHandler, hc] at h
    · simp [SetupSignalHandler, hc] at h
      simp [SetupSignalHandler, ← h]
  · intro n
    match n with
    | 0 => rfl
    | n + 1 =>
      show (1 : Nat) + (deliverSignals ⟨true, true, false⟩ n).2 = min (n + 1) 1
      rw [deliverSignals_count_zero_of_stopClosed n ⟨true, true, false⟩ rfl]
      omega

/-- Witness for C7 at the concrete initial process state: the first call
arms the handler and the second call panics. -/
theorem setupSignalHandler_exactly_once_witness :
    SetupSignalHandler armedState = Except.error "close of closed channel" :=
  setupSignalHandler_exactly_once.1 initialSignalState armedState rfl

/-- A node carrying no labels at all. -/
def demoNodeNoLabels : Node :=
  { ObjectMeta := { Name := "n1", Namespace := "", Labels := [],
                    Annotations := [], ResourceVersion := "" } }

/-- A node whose type label is not kosmos-kubelet. -/
def demoNodeOtherType : Node :=
  { ObjectMeta := { Name := "n2", Namespace := "", Labels := [("type", "worker")],
                    Annotations := [], ResourceVersion := "" } }

/-- C9: the node-inspection helpers are total on absent input.
IsVirtualNode of the nil node pointer, of a node without the type label,
or of a node whose type label differs from kosmos-kubelet is false;
GetClusterID of the nil node pointer or of a node without the clusterID
label is the empty string; both are total functions. -/
theorem node_helpers_total_on_absent :
    IsVirtualNode none = false
    ∧ (∀ n : Node, n.ObjectMeta.Labels.lookup NodeType = none →
        IsVirtualNode (some n) = false)
    ∧ (∀ (n : Node) (v : String), n.ObjectMeta.Labels.lookup NodeType = some v →
        v ≠ KosmosKubeletLabel → IsVirtualNode (some n) = false)
    ∧ GetClusterID none = ""
    ∧ (∀ n : Node, n.ObjectMeta.Labels.lookup ClusterID = none →
        GetClusterID (some n) = "") := by
  refine ⟨rfl, ?_, ?_, rfl, ?_⟩
  · intro n h; simp [IsVirtualNode, h]
  · intro n v h hv; simp [IsVirtualNode, h, hv]
  · intro n h; simp [GetClusterID, h]

/-- Witness for C9 at concrete nodes: one without labels, one with a
different type label. -/
theorem node_helpers_total_on_absent_witness :
    IsVirtualNode (some demoNodeNoLabels) = false
    ∧ IsVirtualNode (some demoNodeOtherType) = false
    ∧ GetClusterID (some demoNodeNoLabels) = "" :=
  ⟨node_helpers_total_on_absent.2.1 demoNodeNoLabels rfl,
   node_helpers_total_on_absent.2.2.1 demoNodeOtherType "worker" rfl (by decide),
   node_helpers_total_on_absent.2.2.2.2 demoNodeNoLabels rfl⟩

/-- C10: UpdateConfigMap overwrites exactly the Labels, Data and
BinaryData fields of the destination ConfigMap with those of the source,
and UpdateSecret exactly Labels, Data, StringData and the secret type
(Go field Type, embedded as SecretType); the name, namespace,
annotations, remaining metadata and the Immutable field of the
destination stay unchanged, and the source object comes back
unmodified. -/
theorem update_helpers_frame :
    (∀ old new : ConfigMap,
      (UpdateConfigMap old new).1.ObjectMeta.Labels = new.ObjectMeta.Labels
      ∧ (UpdateConfigMap old new).1.Data = new.Data
      ∧ (UpdateConfigMap old new).1.BinaryData = new.BinaryData
      ∧ (UpdateConfigMap old new).1.ObjectMeta.Name = old.ObjectMeta.Name
      ∧ (UpdateConfigMap old new).1.ObjectMeta.Namespace = old.ObjectMeta.Namespace
      ∧ (UpdateConfigMap old new).1.ObjectMeta.Annotations = old.ObjectMeta.Annotations
      ∧ (UpdateConfigMap old new).1.ObjectMeta.ResourceVersion = old.ObjectMeta.ResourceVersion
      ∧ (UpdateConfigMap old new).1.Immutable = old.Immutable
      ∧ (UpdateConfigMap old new).2 = new)
    ∧ (∀ old new : Secret,
      (UpdateSecret old new).1.ObjectMeta.Labels = new.ObjectMeta.Labels
      ∧ (UpdateSecret old new).1.Data = new.Data
      ∧ (UpdateSecret old new).1.StringData = new.StringData
      ∧ (UpdateSecret old new).1.SecretType = new.SecretType
      ∧ (UpdateSecret old new).1.ObjectMeta.Name = old.ObjectMeta.Name
      ∧ (UpdateSecret old new).1.ObjectMeta.Namespace = old.ObjectMeta.Namespace
      ∧ (UpdateSecret old new).1.ObjectMeta.Annotations = old.ObjectMeta.Annotations
      ∧ (UpdateSecret old new).1.ObjectMeta.ResourceVersion = old.ObjectMeta.ResourceVersion
      ∧ (UpdateSecret old new).1.Immutable = old.Immutable
      ∧ (UpdateSecret old new).2 = new) :=
  ⟨fun _ _ => ⟨rfl, rfl, rfl, rfl, rfl, rfl, rfl, rfl, rfl⟩,
   fun _ _ => ⟨rfl, rfl, rfl, rfl, rfl, rfl, rfl, rfl, rfl, rfl⟩⟩

/-! ## pkg/knode-manager/adapters/k8s/help.go embedding

The helper functions read the volume list and the imagePullSecrets of a
pod. Only the fields those functions touch are embedded; Go pointers
become Options. -/

structure LocalObjectReference where
  Name : String
deriving DecidableEq, Repr

structure SecretVolumeSource where
  SecretName : String
deriving DecidableEq, Repr

structure CephFSVolumeSource where
  SecretRef : Option LocalObjectReference
deriving DecidableEq, Repr

structure CinderVolumeSource where
  SecretRef : Option LocalObjectReference
deriving DecidableEq, Repr

structure RBDVolumeSource where
  SecretRef : Option LocalObjectReference
deriving DecidableEq, Repr

structure ConfigMapVolumeSource where
  Name : String
deriving DecidableEq, Repr

structure PersistentVolumeClaimVolumeSource where
  ClaimName : String
deriving DecidableEq, Repr

structure Volume where
  Name : String
  Secret : Option SecretVolumeSource
  CephFS : Option CephFSVolumeSource
  Cinder : Option CinderVolumeSource
  RBD : Option RBDVolumeSource
  ConfigMap : Option ConfigMapVolumeSource
  PersistentVolumeClaim : Option PersistentVolumeClaimVolumeSource
deriving DecidableEq, Repr

structure PodSpec where
  Volumes : List Volume
  ImagePullSecrets : List LocalObjectReference
deriving DecidableEq, Repr

structure Pod where
  Name : String
  Spec : PodSpec
deriving DecidableEq, Repr

/-- Contribution of one volume to getSecrets: the switch of help.go in
case order (Secret, CephFS, Cinder, RBD, default). The outer none models
the nil-pointer panic when a CephFS, Cinder or RBD volume has no
SecretRef; the inner Option is the name appended by that case, if any. -/
def volumeSecretName (v : Volume) : Option (Option String) :=
  match v.Secret with
  | some s =>
    if v.Name.startsWith "default-token" then some none else some (some s.SecretName)
  | none =>
    match v.CephFS with
    | some c => match c.SecretRef with | some r => some (some r.Name) | none => none
    | none =>
      match v.Cinder with
      | some c => match c.SecretRef with | some r => some (some r.Name) | none => none
      | none =>
        match v.RBD with
        | some c => match c.SecretRef with | some r => some (some r.Name) | none => none
        | none => some none

/-- The volume loop of getSecrets, in volume order; none is a panic. -/
def getSecretsLoop : List Volume → Option (List String)
  | [] => some []
  | v :: vs =>
    match volumeSecretName v, getSecretsLoop vs with
    | none, _ => none
    | some none, rest => rest
    | some (some name), rest => rest.map (name :: ·)

/-- Embeds getSecrets of help.go: volume contributions in order, then
all imagePullSecrets names. -/
def getSecrets (pod : Pod) : Option (List String) :=
  (getSecretsLoop pod.Spec.Volumes).map
    (fun names => names ++ pod.Spec.ImagePullSecrets.map LocalObjectReference.Name)

/-- Embeds getConfigmaps of help.go. -/
def getConfigmaps (pod : Pod) : List String :=
  pod.Spec.Volumes.filterMap (fun v => v.ConfigMap.map ConfigMapVolumeSource.Name)

/-- Embeds getPVCs of help.go. -/
def getPVCs (pod : Pod) : List String :=
  pod.Spec.Volumes.filterMap
    (fun v => v.PersistentVolumeClaim.map PersistentVolumeClaimVolumeSource.ClaimName)

/-! Claim-side descriptions of the three dependency-collection helpers,
written from the words of the claim: each dependency kind contributes
exactly its own names. -/

/-- Per the claim: the secret name of a secret-type volume, unless the
volume name starts with default-token. -/
def secretVolName (v : Volume) : Option String :=
  v.Secret.bind (fun s =>
    if v.Name.startsWith "default-token" then none else some s.SecretName)

/-- Per the claim: the secret ref of a CephFS volume. -/
def cephFSSecretName (v : Volume) : Option String :=
  v.CephFS.bind (fun c => c.SecretRef.map LocalObjectReference.Name)

/-- Per the claim: the secret ref of a Cinder volume. -/
def cinderSecretName (v : Volume) : Option String :=
  v.Cinder.bind (fun c => c.SecretRef.map LocalObjectReference.Name)

/-- Per the claim: the secret ref of an RBD volume. -/
def rbdSecretName (v : Volume) : Option String :=
  v.RBD.bind (fun c => c.SecretRef.map LocalObjectReference.Name)

/-- Per the claim: the secret names of secret-type volumes except the
default-token ones, plus the secret refs of CephFS, Cinder and RBD
volumes, plus all imagePullSecrets names. -/
def claimSecretNames (pod : Pod) : List String :=
  pod.Spec.Volumes.filterMap secretVolName
  ++ pod.Spec.Volumes.filterMap cephFSSecretName
  ++ pod.Spec.Volumes.filterMap cinderSecretName
  ++ pod.Spec.Volumes.filterMap rbdSecretName
  ++ pod.Spec.ImagePullSecrets.map LocalObjectReference.Name

/-- Per the claim: precisely the ConfigMap names of the volumes that
have a ConfigMap source. -/
def claimConfigMapNames (pod : Pod) : List String :=
  (pod.Spec.Volumes.filterMap Volume.ConfigMap).map ConfigMapVolumeSource.Name

/-- Per the claim: precisely the claim names of the volumes that have a
PersistentVolumeClaim source. -/
def claimPVCNames (pod : Pod) : List String :=
  (pod.Spec.Volumes.filterMap Volume.PersistentVolumeClaim).map
    PersistentVolumeClaimVolumeSource.ClaimName

/-- A volume is well formed when it carries at most one of the four
secret-bearing sources and any CephFS, Cinder or RBD source has its
SecretRef set (otherwise getSecrets hits a nil-pointer dereference). -/
def wfVolume (v : Volume) : Bool :=
  match v.Secret, v.CephFS, v.Cinder, v.RBD with
  | some _, none, none, none => true
  | none, some c, none, none => c.SecretRef.isSome
  | none, none, some c, none => c.SecretRef.isSome
  | none, none, none, some c => c.SecretRef.isSome
  | none, none, none, none => true
  | _, _, _, _ => false

/-- A pod all of whose volumes are well formed. -/
def wfPod (pod : Pod) : Bool := pod.Spec.Volumes.all wfVolume

/-- On well-formed volume lists the getSecrets loop succeeds and its
output is, up to the interleaving order, the four per-kind name lists of
the claim. -/
theorem getSecretsLoop_perm (vs : List Volume) (h : vs.all wfVolume = true) :
    ∃ l, getSecretsLoop vs = some l ∧
      l.Perm (vs.filterMap secretVolName ++ vs.filterMap cephFSSecretName
        ++ vs.filterMap cinderSecretName ++ vs.filterMap rbdSecretName) := by
  induction vs with
  | nil => exact ⟨[], rfl, by simp⟩
  | cons v vs ih =>
    rw [List.all_cons, Bool.and_eq_true] at h
    obtain ⟨l, hl, hp⟩ := ih h.2
    have hv := h.1
    rcases hS : v.Secret with _ | s
    · have e1 : secretVolName v = none := by simp [secretVolName, hS]
      rcases hC : v.CephFS with _ | c
      · have e2 : cephFSSecretName v = none := by simp [cephFSSecretName, hC]
        rcases hCi : v.Cinder with _ | c
        · have e3 : cinderSecretName v = none := by simp [cinderSecretName, hCi]
          rcases hR : v.RBD with _ | c
          · have e4 : rbdSecretName v = none := by simp [rbdSecretName, hR]
            refine ⟨l, ?_, ?_⟩
            · simp [getSecretsLoop, volumeSecretName, hS, hC, hCi, hR, hl]
            · simp only [List.filterMap_cons, e1, e2, e3, e4]
              exact hp
          · simp only [wfVolume, hS, hC, hCi, hR] at hv
            obtain ⟨r, hr⟩ := Option.isSome_iff_exists.mp hv
            have e4 : rbdSecretName v = some r.Name := by simp [rbdSecretName, hR, hr]
            refine ⟨r.Name :: l, ?_, ?_⟩
            · simp [getSecretsLoop, volumeSecretName, hS, hC, hCi, hR, hr, hl]
            · simp only [List.filterMap_cons, e1, e2, e3, e4]
              exact (hp.cons r.Name).trans List.perm_middle.symm
        · rcases hR : v.RBD with _ | c2
          · simp only [wfVolume, hS, hC, hCi, hR] at hv
            obtain ⟨r, hr⟩ := Option.isSome_iff_exists.mp hv
            have e3 : cinderSecretName v = some r.Name := by
              simp [cinderSecretName, hCi, hr]
            have e4 : rbdSecretName v = none := by simp [rbdSecretName, hR]
            refine ⟨r.Name :: l, ?_, ?_⟩
            · simp [getSecretsLoop, volumeSecretName, hS, hC, hCi, hR, hr, hl]
            · simp only [List.filterMap_cons, e1, e2, e3, e4]
              exact (hp.cons r.Name).trans (List.perm_middle.symm.append_right _)
          · simp [wfVolume, hS, hC, hCi, hR] at hv
      · rcases hCi : v.Cinder with _ | c2
        · rcases hR : v.RBD with _ | c2
          · simp only [wfVolume, hS, hC, hCi, hR] at hv
            obtain ⟨r, hr⟩ := Option.isSome_iff_exists.mp hv
            have e2 : cephFSSecretName v = some r.Name := by
              simp [cephFSSecretName, hC, hr]
            have e3 : cinderSecretName v = none := by simp [cinderSecretName, hCi]
            have e4 : rbdSecretName v = none := by simp [rbdSecretName, hR]
            refine ⟨r.Name :: l, ?_, ?_⟩
            · simp [getSecretsLoop, volumeSecretName, hS, hC, hCi, hR, hr, hl]
            · simp only [List.filterMap_cons, e1, e2, e3, e4]
              exact (hp.cons r.Name).trans
                ((List.perm_middle.symm.append_right _).append_right _)
          · simp [wfVolume, hS, hC, hCi, hR] at hv
        · simp [wfVolume, hS, hC, hCi] at hv
    · rcases hC : v.CephFS with _ | c
      · have e2 : cephFSSecretName v = none := by simp [cephFSSecretName, hC]
        rcases hCi : v.Cinder with _ | c2
        · have e3 : cinderSecretName v = none := by simp [cinderSecretName, hCi]
          rcases hR : v.RBD with _ | c2
          · have e4 : rbdSecretName v = none := by simp [rbdSecretName, hR]
            by_cases hdt : v.Name.startsWith "default-token"
            · have e1 : secretVolName v = none := by simp [secretVolName, hS, hdt]
              refine ⟨l, ?_, ?_⟩
              · simp [getSecretsLoop, volumeSecretName, hS, hC, hCi, hR, hdt, hl]
              · simp only [List.filterMap_cons, e1, e2, e3, e4]
                exact hp
            · have e1 : secretVolName v = some s.SecretName := by
                simp [secretVolName, hS, hdt]
              refine ⟨s.SecretName :: l, ?_, ?_⟩
              · simp [getSecretsLoop, volumeSecretName, hS, hC, hCi, hR, hdt, hl]
              · simp only [List.filterMap_cons, e1, e2, e3, e4]
                exact hp.cons s.SecretName
          · simp [wfVolume, hS, hC, hCi, hR] at hv
        · simp [wfVolume, hS, hC, hCi] at hv
      · simp [wfVolume, hS, hC] at hv

/-- C8: each dependency kind contributes exactly its own names.
getConfigmaps yields precisely the ConfigMap names of volumes with a
ConfigMap source, getPVCs precisely the claim names of volumes with a
PersistentVolumeClaim source, and, on pods whose volumes carry at most
one secret-bearing source each with its SecretRef set, getSecrets
yields exactly (up to order) the secret names of secret-type volumes
outside default-token, the secret refs of CephFS, Cinder and RBD
volumes, and all imagePullSecrets names. -/
theorem dependency_kinds_exact :
    (∀ pod : Pod, getConfigmaps pod = claimConfigMapNames pod)
    ∧ (∀ pod : Pod, getPVCs pod = claimPVCNames pod)
    ∧ (∀ pod : Pod, wfPod pod = true →
        ∃ l, getSecrets pod = some l ∧ l.Perm (claimSecretNames pod)) := by
  refine ⟨?_, ?_, ?_⟩
  · intro pod
    simp [getConfigmaps, claimConfigMapNames, List.map_filterMap]
  · intro pod
    simp [getPVCs, claimPVCNames, List.map_filterMap]
  · intro pod h
    obtain ⟨l, hl, hp⟩ := getSecretsLoop_perm pod.Spec.Volumes h
    refine ⟨l ++ pod.Spec.ImagePullSecrets.map LocalObjectReference.Name, ?_, ?_⟩
    · simp [getSecrets, hl]
    · exact hp.append_right _

/-- A pod exercising every dependency kind: a service-account token
volume, a plain secret volume, a CephFS volume with a secret ref, a
ConfigMap volume, a PVC volume and one imagePullSecret. -/
def demoPod : Pod :=
  { Name := "demo",
    Spec :=
    { Volumes :=
        [{ Name := "default-token-abc", Secret := some { SecretName := "token-secret" },
           CephFS := none, Cinder := none, RBD := none, ConfigMap := none,
           PersistentVolumeClaim := none },
         { Name := "app-secret-vol", Secret := some { SecretName := "app-secret" },
           CephFS := none, Cinder := none, RBD := none, ConfigMap := none,
           PersistentVolumeClaim := none },
         { Name := "ceph-vol", Secret := none,
           CephFS := some { SecretRef := some { Name := "ceph-secret" } },
           Cinder := none, RBD := none, ConfigMap := none,
           PersistentVolumeClaim := none },
         { Name := "cm-vol", Secret := none, CephFS := none, Cinder := none,
           RBD := none, ConfigMap := some { Name := "app-config" },
           PersistentVolumeClaim := none },
         { Name := "pvc-vol", Secret := none, CephFS := none, Cinder := none,
           RBD := none, ConfigMap := none,
           PersistentVolumeClaim := some { ClaimName := "app-claim" } }],
      ImagePullSecrets := [{ Name := "pull-secret" }] } }

/-- Witness for C8 at the concrete pod demoPod. -/
theorem dependency_kinds_exact_witness :
    ∃ l, getSecrets demoPod = some l ∧ l.Perm (claimSecretNames demoPod) :=
  dependency_kinds_exact.2.2 demoPod (by decide)

/-! ## pkg/utils embedding: CreateMergePatch

utils.CreateMergePatch marshals its two arguments with encoding/json and
hands both documents to CreateMergePatch of the json-patch library
(github.com/evanphx/json-patch, merge.go), a dependency whose source
lies outside this repository; the library functions the wrapper reaches
are embedded below from that package. Go unmarshals a JSON document into
nil, bool, float64, string, slice and string-keyed map values; a map
becomes an association list whose keys are pairwise distinct, and a
number is kept abstract as an integer since the library only ever
compares numbers for equality. -/

inductive Json where
  | null
  | bool (b : Bool)
  | num (n : Int)
  | str (s : String)
  | arr (elems : List Json)
  | obj (fields : List (String × Json))

/-- Indexing of the Go map underlying an object document. -/
def jlookup (k : String) : List (String × Json) → Option Json
  | [] => none
  | (k2, v) :: rest => if k == k2 then some v else jlookup k rest

/-- A value found by jlookup is structurally smaller than its map. -/
theorem sizeOf_lt_of_jlookup {k : String} :
    ∀ {l : List (String × Json)} {v : Json}, jlookup k l = some v → sizeOf v < sizeOf l := by
  intro l
  induction l with
  | nil => intro v h; simp [jlookup] at h
  | cons p rest ih =>
    intro v h
    obtain ⟨k2, v2⟩ := p
    simp only [jlookup] at h
    split at h
    · injection h with h2
      subst h2
      simp
      omega
    · have h3 := ih h
      simp
      omega

/-- The dynamic Go type of an unmarshalled JSON value, standing for
reflect.TypeOf in the library. -/
def Json.tag : Json → Nat
  | .null => 0
  | .bool _ => 1
  | .num _ => 2
  | .str _ => 3
  | .arr _ => 4
  | .obj _ => 5

/-- Embedded from matchesValue and matchesArray of the json-patch
library: deep equality of two unmarshalled JSON values. Values of
different dynamic types never match; arrays match pairwise after a
length check; maps match when they have the same length and every key of
the second map is present in the first with a matching value. -/
def matchesValue : Json → Json → Bool
  | .str a, .str b => a == b
  | .num a, .num b => a == b
  | .bool a, .bool b => a == b
  | .null, .null => true
  | .obj a, .obj b =>
    if a.length != b.length then false
    else b.attach.all (fun p =>
      match h : jlookup p.1.1 a with
      | some av => matchesValue av p.1.2
      | none => false)
  | .arr a, .arr b =>
    if a.length != b.length then false
    else (a.zip b).attach.all (fun p => matchesValue p.1.1 p.1.2)
  | _, _ => false
termination_by a b => sizeOf a + sizeOf b
decreasing_by
  · have h1 : sizeOf av < 1 + sizeOf a := by
      have := sizeOf_lt_of_jlookup h
      omega
    have h2 : sizeOf p.1 < sizeOf b := List.sizeOf_lt_of_mem p.2
    have h3 : sizeOf p.1.2 < sizeOf p.1 := by
      obtain ⟨⟨x, y⟩, hxy⟩ := p
      simp
    simp
    omega
  · have h4 := List.of_mem_zip p.2
    have h1 : sizeOf p.1.1 < sizeOf a := List.sizeOf_lt_of_mem h4.1
    have h2 : sizeOf p.1.2 < sizeOf b := List.sizeOf_lt_of_mem h4.2
    simp
    omega

mutual

/-- Embedded from getDiff of the json-patch library, additions part: for
each key of the modified map in order, a key absent from the original or
whose value changed dynamic type is replaced wholesale; two maps recurse
and contribute only a non-empty sub-diff; any other pair contributes the
modified value unless it matches the original (two nils always match). -/
def diffAdds (a : List (String × Json)) : List (String × Json) → List (String × Json)
  | [] => []
  | (k, bv) :: bs =>
    let rest := diffAdds a bs
    match h : jlookup k a with
    | none => (k, bv) :: rest
    | some av =>
      if av.tag != bv.tag then (k, bv) :: rest
      else
        match h1 : av, h2 : bv with
        | .obj at2, .obj bt2 =>
          let dst := getDiff at2 bt2
          if dst.length > 0 then (k, .obj dst) :: rest else rest
        | av2, bv2 => if matchesValue av2 bv2 then rest else (k, bv2) :: rest
termination_by b => (sizeOf a, 0, sizeOf b)
decreasing_by
  · apply Prod.Lex.right
    apply Prod.Lex.right
    simp
  · apply Prod.Lex.left
    have h3 := sizeOf_lt_of_jlookup h
    subst h1
    simp at h3
    omega

/-- Embedded from getDiff of the json-patch library: the additions and
changes for every key of the modified map, then every key present only
in the original map mapped to null (a merge-patch deletion). getDiff
never returns an error on unmarshalled JSON documents, so the embedding
is error-free. -/
def getDiff (a b : List (String × Json)) : List (String × Json) :=
  diffAdds a b
    ++ (a.filter (fun p => (jlookup p.1 b).isNone)).map (fun p => (p.1, Json.null))
termination_by (sizeOf a, 1, 0)
decreasing_by
  apply Prod.Lex.right
  apply Prod.Lex.left
  omega

end

/-- Error string of errBadJSONDoc in the json-patch library. -/
def errBadJSONDoc : String := "Invalid JSON Document"

/-- Error string of errBadMergeTypes in the json-patch library. -/
def errBadMergeTypes : String := "Mismatched JSON Documents"

/-- Unmarshalling a document into a string-keyed Go map: an object
yields its fields, a null document leaves the map nil, and any other
document (number, string, boolean, array) fails. -/
def asObjectDoc : Json → Except String (List (String × Json))
  | Json.obj fs => Except.ok fs
  | Json.null => Except.ok []
  | _ => Except.error errBadJSONDoc

/-- Embedded from createObjectMergePatch of the json-patch library: both
documents must unmarshal into string-keyed maps (errBadJSONDoc
otherwise) and the patch is the marshalled diff of the two maps. -/
def createObjectMergePatch (o m : Json) : Except String Json := do
  let a ← asObjectDoc o
  let b ← asObjectDoc m
  pure (Json.obj (getDiff a b))

/-- Embedded from createArrayMergePatch of the json-patch library: both
arrays must have the same length (errBadJSONDoc otherwise); every
element pair goes through createObjectMergePatch and the patches are
returned as an array. -/
def createArrayMergePatch (a b : List Json) : Except String Json := do
  if a.length != b.length then
    throw errBadJSONDoc
  else
    let patches ← (a.zip b).mapM (fun p => createObjectMergePatch p.1 p.2)
    pure (Json.arr patches)

/-- Embedded from CreateMergePatch of the json-patch library: two
documents that look like JSON arrays go through createArrayMergePatch,
two non-arrays through createObjectMergePatch, and a mix fails with
errBadMergeTypes. -/
def jsonpatchCreateMergePatch : Json → Json → Except String Json
  | Json.arr a, Json.arr b => createArrayMergePatch a b
  | Json.arr _, _ => Except.error errBadMergeTypes
  | _, Json.arr _ => Except.error errBadMergeTypes
  | o, m => createObjectMergePatch o m

/-- Embeds utils.CreateMergePatch: both Go values are marshalled with
encoding/json and the two documents handed to the library
CreateMergePatch. Marshalling a Go value produces exactly its JSON
document, so the embedding takes the two documents directly. -/
def CreateMergePatch (original new : Json) : Except String Json :=
  jsonpatchCreateMergePatch original new

/-- No entry of the association list carries the given key. -/
def keyFree (k : String) : List (String × Json) → Bool
  | [] => true
  | (k2, _) :: fs => !(k == k2) && keyFree k fs

mutual

/-- Representation invariant of an unmarshalled Go JSON value: every
object has pairwise distinct keys, recursively. Documents produced by
encoding/json marshalling satisfy it by construction. -/
def Json.wf : Json → Bool
  | .null => true
  | .bool _ => true
  | .num _ => true
  | .str _ => true
  | .arr es => wfElems es
  | .obj fs => wfFields fs

/-- All elements of an array are well formed. -/
def wfElems : List Json → Bool
  | [] => true
  | v :: vs => v.wf && wfElems vs

/-- Keys are pairwise distinct and all values are well formed. -/
def wfFields : List (String × Json) → Bool
  | [] => true
  | (k, v) :: fs => keyFree k fs && v.wf && wfFields fs

end

/-- A key that is keyFree in a map is not found by jlookup. -/
theorem jlookup_eq_none_of_keyFree {k : String} :
    ∀ {fs : List (String × Json)}, keyFree k fs = true → jlookup k fs = none := by
  intro fs
  induction fs with
  | nil => intro _; rfl
  | cons p rest ih =>
    obtain ⟨k2, v2⟩ := p
    intro h
    simp only [keyFree, Bool.and_eq_true, Bool.not_eq_true', beq_eq_false_iff_ne] at h
    simp [jlookup, h.1, ih h.2]

/-- A key present in a map is found by jlookup. -/
theorem jlookup_isSome_of_mem {k : String} {v : Json} :
    ∀ {fs : List (String × Json)}, (k, v) ∈ fs → (jlookup k fs).isSome = true := by
  intro fs
  induction fs with
  | nil => intro hm; simp at hm
  | cons p rest ih =>
    obtain ⟨k2, v2⟩ := p
    intro hm
    by_cases hk : k = k2
    · simp [jlookup, hk]
    · rcases List.mem_cons.mp hm with heq | hmem
      · exact absurd (congrArg Prod.fst heq) hk
      · simp [jlookup, hk, ih hmem]

/-- In a map with pairwise distinct keys, jlookup finds exactly the
stored value of a present entry. -/
theorem jlookup_eq_some_of_wfFields {k : String} {v : Json} :
    ∀ {fs : List (String × Json)}, wfFields fs = true → (k, v) ∈ fs →
      jlookup k fs = some v := by
  intro fs
  induction fs with
  | nil => intro _ hm; simp at hm
  | cons p rest ih =>
    obtain ⟨k2, v2⟩ := p
    intro hwf hm
    simp only [wfFields, Bool.and_eq_true] at hwf
    rcases List.mem_cons.mp hm with heq | hmem
    · obtain ⟨h1, h2⟩ := Prod.mk.injEq .. ▸ heq
      subst h1
      subst h2
      simp [jlookup]
    · by_cases hk : k = k2
      · subst hk
        have h0 := jlookup_eq_none_of_keyFree hwf.1.1
        have h1 := jlookup_isSome_of_mem hmem
        rw [h0] at h1
        simp at h1
      · simp [jlookup, hk, ih hwf.2 hmem]

/-- Every element of a well-formed array is well formed. -/
theorem wfElems_mem {v : Json} :
    ∀ {es : List Json}, wfElems es = true → v ∈ es → Json.wf v = true := by
  intro es
  induction es with
  | nil => intro _ hm; simp at hm
  | cons e rest ih =>
    intro h hm
    rw [wfElems, Bool.and_eq_true] at h
    rcases List.mem_cons.mp hm with rfl | hmem
    · exact h.1
    · exact ih h.2 hmem

/-- Every value of a well-formed map is well formed. -/
theorem wfFields_mem {k : String} {v : Json} :
    ∀ {fs : List (String × Json)}, wfFields fs = true → (k, v) ∈ fs →
      Json.wf v = true := by
  intro fs
  induction fs with
  | nil => intro _ hm; simp at hm
  | cons p rest ih =>
    obtain ⟨k2, v2⟩ := p
    intro h hm
    rw [wfFields, Bool.and_eq_true, Bool.and_eq_true] at h
    rcases List.mem_cons.mp hm with heq | hmem
    · obtain ⟨h1, h2⟩ := Prod.mk.injEq .. ▸ heq
      subst h2
      exact h.1.2
    · exact ih h.2 hmem

/-- Entries of the pairwise zip of a list with itself are reflexive
pairs of list elements. -/
theorem mem_zip_self {α : Type} {x y : α} :
    ∀ {l : List α}, (x, y) ∈ l.zip l → x = y ∧ x ∈ l := by
  intro l
  induction l with
  | nil => intro hm; simp at hm
  | cons a l ih =>
    intro hm
    rw [List.zip_cons_cons] at hm
    rcases List.mem_cons.mp hm with heq | hmem
    · have h1 : x = a := congrArg Prod.fst heq
      have h2 : y = a := congrArg Prod.snd heq
      constructor
      · exact h1.trans h2.symm
      · rw [h1]
        exact List.mem_cons_self _ _
    · obtain ⟨h1, h2⟩ := ih hmem
      exact ⟨h1, List.mem_cons_of_mem a h2⟩

/-- matchesValue is reflexive on well-formed documents. -/
theorem matchesValue_refl : ∀ (v : Json), Json.wf v = true → matchesValue v v = true
  | .null, _ => by simp [matchesValue]
  | .bool b, _ => by simp [matchesValue]
  | .num n, _ => by simp [matchesValue]
  | .str s, _ => by simp [matchesValue]
  | .arr es, h => by
    rw [Json.wf] at h
    simp only [matchesValue, bne_self_eq_false, Bool.false_eq_true, if_false]
    rw [List.all_eq_true]
    intro p _
    obtain ⟨⟨x, y⟩, hmem⟩ := p
    obtain ⟨hxy, hx⟩ := mem_zip_self hmem
    subst hxy
    exact matchesValue_refl x (wfElems_mem h hx)
  | .obj fs, h => by
    rw [Json.wf] at h
    simp only [matchesValue, bne_self_eq_false, Bool.false_eq_true, if_false]
    rw [List.all_eq_true]
    intro p _
    obtain ⟨⟨k, v⟩, hmem⟩ := p
    have hjl := jlookup_eq_some_of_wfFields h hmem
    split
    · rename_i av heq
      rw [hjl] at heq
      injection heq with heq2
      subst heq2
      exact matchesValue_refl v (wfFields_mem h hmem)
    · rename_i heq
      rw [hjl] at heq
      cases heq
termination_by v => sizeOf v
decreasing_by
  · have h1 := List.sizeOf_lt_of_mem hx
    simp
    omega
  · have h1 := List.sizeOf_lt_of_mem hmem
    simp only [Json.obj.sizeOf_spec]
    simp at h1
    omega

mutual

/-- On a well-formed map, the additions part of the self-diff is empty,
for any sublist of its entries. -/
theorem diffAdds_refl (m : List (String × Json)) (hwf : wfFields m = true) :
    ∀ bs : List (String × Json), (∀ p ∈ bs, p ∈ m) → diffAdds m bs = []
  | [], _ => by simp [diffAdds]
  | (k, bv) :: bs, hsub => by
    have hmem : (k, bv) ∈ m := hsub _ (List.mem_cons_self _ _)
    have hrest : diffAdds m bs = [] :=
      diffAdds_refl m hwf bs (fun p hp => hsub p (List.mem_cons_of_mem _ hp))
    have hlk : jlookup k m = some bv := jlookup_eq_some_of_wfFields hwf hmem
    have hbwf : Json.wf bv = true := wfFields_mem hwf hmem
    simp only [diffAdds]
    split
    · rename_i heq
      rw [hlk] at heq
      cases heq
    · rename_i av heq
      rw [hlk] at heq
      injection heq with h2
      subst h2
      simp only [bne_self_eq_false, Bool.false_eq_true, if_false]
      split
      · rename_i at2 bt2 h1 h2
        have hat : at2 = bt2 := by injection h2
        subst hat
        have hwf2 : wfFields at2 = true := by
          simp only [Json.wf] at hbwf
          exact hbwf
        have hdst : getDiff at2 at2 = [] := getDiff_refl at2 hwf2
        simp [hdst, hrest]
      · simp [matchesValue_refl _ hbwf, hrest]
termination_by bs _ => (sizeOf m, 0, sizeOf bs)
decreasing_by
  · apply Prod.Lex.right
    apply Prod.Lex.right
    simp
  · apply Prod.Lex.left
    have h3 := List.sizeOf_lt_of_mem hmem
    simp at h3
    omega

/-- The self-diff of a well-formed map is empty: the no-op case of the
merge-patch computation. -/
theorem getDiff_refl (m : List (String × Json)) (hwf : wfFields m = true) :
    getDiff m m = [] := by
  have h1 : diffAdds m m = [] := diffAdds_refl m hwf m (fun p hp => hp)
  have h2 : m.filter (fun p => (jlookup p.1 m).isNone) = [] := by
    rw [List.filter_eq_nil_iff]
    intro p hp
    obtain ⟨k, v⟩ := p
    have h3 := jlookup_isSome_of_mem hp
    rw [Option.isSome_iff_exists] at h3
    obtain ⟨w, hw⟩ := h3
    simp [hw]
  simp only [getDiff, h1, h2, List.nil_append, List.map_nil]
termination_by (sizeOf m, 1, 0)
decreasing_by
  apply Prod.Lex.right
  apply Prod.Lex.left
  omega

end

/-- C5 counterexample: utils.CreateMergePatch applied to the identical
JSON number 5 on both sides fails with Invalid JSON Document instead of
succeeding with the empty patch, because the library unmarshals each
non-array document into a string-keyed map and a bare number is not
one. -/
theorem createMergePatch_num_self_fails :
    CreateMergePatch (Json.num 5) (Json.num 5) = Except.error errBadJSONDoc := rfl

/-- C5 amended: for every JSON-serializable value whose document is an
object with distinct keys — as a marshalled NodeConfig always is —
CreateMergePatch of the value against itself succeeds and returns the
empty merge patch, the idempotent no-op case of Publish. -/
theorem createMergePatch_self_empty (fs : List (String × Json))
    (h : wfFields fs = true) :
    CreateMergePatch (Json.obj fs) (Json.obj fs) = Except.ok (Json.obj []) := by
  show Except.ok (Json.obj (getDiff fs fs)) = Except.ok (Json.obj [])
  rw [getDiff_refl fs h]

/-- A nested document standing for a marshalled NodeConfig-like value. -/
def demoFields : List (String × Json) :=
  [("devices", Json.arr [Json.obj [("id", Json.num 1), ("name", Json.str "vx-net")]]),
   ("routes", Json.arr []),
   ("enable", Json.bool true),
   ("note", Json.null)]

/-- Witness for the amended C5 at a concrete nested document. -/
theorem createMergePatch_self_empty_witness :
    CreateMergePatch (Json.obj demoFields) (Json.obj demoFields)
      = Except.ok (Json.obj []) :=
  createMergePatch_self_empty demoFields
    (by simp [demoFields, wfFields, keyFree, Json.wf, wfElems])

/-! ## Topology Compiler model (C6)

The Topology Compiler itself is not among the sources under src/; the
repository only carries the data contracts it reads and writes (the CRD
schemas above). Its inputs, outputs and algorithm are therefore modelled
from the specification. The NodeConfig entry records follow the field
shapes of the NodeConfig CRD. -/

structure Device where
  id : Int
  name : String
  mac : String
  bindDev : String
  addr : String
  port : Int
  type : String
deriving DecidableEq, Repr

structure Route where
  cidr : String
  dev : String
  gw : String
deriving DecidableEq, Repr

structure Fdb where
  dev : String
  ip : String
  mac : String
deriving DecidableEq, Repr

structure Arp where
  dev : String
  ip : String
  mac : String
deriving DecidableEq, Repr

structure Iptable where
  table : String
  chain : String
  rule : String
deriving DecidableEq, Repr

structure NodeConfigSpec where
  devices : List Device
  routes : List Route
  fdbs : List Fdb
  arps : List Arp
  iptables : List Iptable
deriving DecidableEq, Repr

/-- Modelled from the spec: the Cluster attributes Compile consumes —
name, network model (p2p or gateway) and IP family (all, ipv4, ipv6). -/
structure Cluster where
  name : String
  networkType : String
  ipFamily : String
deriving DecidableEq, Repr

/-- Modelled from the spec: the ClusterNode attributes Compile consumes —
owning cluster, node name, interface, addresses, roles and pod CIDRs. -/
structure ClusterNode where
  clusterName : String
  nodeName : String
  interfaceName : String
  ip : String
  ip6 : String
  roles : List String
  podCIDRs : List String
deriving DecidableEq, Repr

/-- The empty NodeConfig. -/
def NodeConfigSpec.empty : NodeConfigSpec := ⟨[], [], [], [], []⟩

/-- Entry-wise concatenation of two NodeConfigs. -/
def NodeConfigSpec.append (a b : NodeConfigSpec) : NodeConfigSpec :=
  ⟨a.devices ++ b.devices, a.routes ++ b.routes, a.fdbs ++ b.fdbs,
   a.arps ++ b.arps, a.iptables ++ b.iptables⟩

/-- Entry-wise concatenation of a list of NodeConfigs. -/
def concatSpecs (l : List NodeConfigSpec) : NodeConfigSpec :=
  l.foldr NodeConfigSpec.append NodeConfigSpec.empty

/-- The lexicographically smallest node by node name: the stable
tie-break of the spec. -/
def minByName : List ClusterNode → Option ClusterNode
  | [] => none
  | n :: ns =>
    match minByName ns with
    | none => some n
    | some m => if n.nodeName ≤ m.nodeName then some n else some m

/-- Modelled from the spec: the tunnel peer elected in a remote cluster —
prefer a node carrying the gateway role if present, else the lowest node
name lexicographically. -/
def pickPeer (remotes : List ClusterNode) : Option ClusterNode :=
  match minByName (remotes.filter (fun n => n.roles.contains "gateway")) with
  | some g => some g
  | none => minByName remotes

/-- The address families a cluster emits, per its ipFamily: family all
emits every entity twice, once per family. -/
def familiesOf (c : Cluster) : List String :=
  if c.ipFamily = "all" then ["ipv4", "ipv6"] else [c.ipFamily]

/-- The address of a node in the given family. -/
def nodeAddr (fam : String) (n : ClusterNode) : String :=
  if fam = "ipv6" then n.ip6 else n.ip

/-- Modelled from the spec: a stable synthetic tunnel MAC per node. -/
def tunnelMac (n : ClusterNode) : String := "mac-" ++ n.nodeName

/-- Modelled from the spec: the tunnel device name toward a remote
cluster in one family. -/
def tunnelDevName (rc : Cluster) (fam : String) : String :=
  "vx-" ++ rc.name ++ "-" ++ fam

/-- Modelled from the spec: the per-family entries one node receives
toward one remote cluster in the p2p mesh — one tunnel device, a route
per remote pod CIDR via the elected peer, and an FDB plus an ARP entry
per remote node binding its tunnel MAC to its address. -/
def p2pEntries (n : ClusterNode) (rc : Cluster) (remotes : List ClusterNode)
    (fam : String) : NodeConfigSpec :=
  let dev := tunnelDevName rc fam
  match pickPeer remotes with
  | none => NodeConfigSpec.empty
  | some peer =>
    { devices := [{ id := 0, name := dev, mac := tunnelMac n,
                    bindDev := n.interfaceName, addr := nodeAddr fam n,
                    port := 4789, type := "vxlan" }],
      routes := remotes.flatMap (fun rn =>
        rn.podCIDRs.map (fun cidr => ⟨cidr, dev, nodeAddr fam peer⟩)),
      fdbs := remotes.map (fun rn => ⟨dev, nodeAddr fam rn, tunnelMac rn⟩),
      arps := remotes.map (fun rn => ⟨dev, nodeAddr fam rn, tunnelMac rn⟩),
      iptables := [] }

/-- Modelled from the spec: the NodeConfig of one node. In the p2p model
the node meshes with every remote cluster; in the gateway model only
gateway nodes mesh (and only with remote gateway nodes) while every
other node gets a single default route per family toward its local
gateway. -/
def compileNode (clusters : List Cluster) (nodes : List ClusterNode)
    (n : ClusterNode) : NodeConfigSpec :=
  match clusters.find? (fun c => c.name == n.clusterName) with
  | none => NodeConfigSpec.empty
  | some c =>
    concatSpecs ((familiesOf c).map (fun fam =>
      if c.networkType = "gateway" then
        if n.roles.contains "gateway" then
          concatSpecs ((clusters.filter (fun rc => rc.name != c.name)).map
            (fun rc => p2pEntries n rc
              (nodes.filter (fun m =>
                m.clusterName == rc.name && m.roles.contains "gateway")) fam))
        else
          match pickPeer (nodes.filter (fun m =>
              m.clusterName == c.name && m.roles.contains "gateway")) with
          | none => NodeConfigSpec.empty
          | some gw =>
            { devices := [],
              routes := [⟨if fam = "ipv6" then "::/0" else "0.0.0.0/0",
                          tunnelDevName c fam, nodeAddr fam gw⟩],
              fdbs := [], arps := [], iptables := [] }
      else
        concatSpecs ((clusters.filter (fun rc => rc.name != c.name)).map
          (fun rc => p2pEntries n rc
            (nodes.filter (fun m => m.clusterName == rc.name)) fam))))

/-- Modelled from the spec: Compile, a pure function from the cluster
and node inventory to a NodeConfig per node, keyed by node name. -/
def Compile (clusters : List Cluster) (nodes : List ClusterNode) :
    List (String × NodeConfigSpec) :=
  nodes.map (fun n => (n.nodeName, compileNode clusters nodes n))

/-- C6 (spec-modelled): Compile is pure and deterministic in its inputs —
running it twice on the identical input set yields identical NodeConfig
output for every node. -/
theorem compile_deterministic (cs1 cs2 : List Cluster)
    (ns1 ns2 : List ClusterNode) (hc : cs1 = cs2) (hn : ns1 = ns2) :
    Compile cs1 ns1 = Compile cs2 ns2 := by
  rw [hc, hn]

/-- A concrete two-cluster, two-node p2p inventory. -/
def demoClusters : List Cluster := [⟨"a", "p2p", "ipv4"⟩, ⟨"b", "p2p", "ipv4"⟩]

/-- The nodes of the two demo clusters. -/
def demoNodes : List ClusterNode :=
  [⟨"a", "a1", "eth0", "10.0.1.1", "fd00::1", ["worker"], ["10.1.0.0/16"]⟩,
   ⟨"b", "b1", "eth0", "10.0.2.1", "fd00::2", ["gateway"], ["10.2.0.0/16"]⟩]

/-- Witness for C6 at the concrete inventory. -/
theorem compile_deterministic_witness :
    Compile demoClusters demoNodes = Compile demoClusters demoNodes :=
  compile_deterministic demoClusters demoClusters demoNodes demoNodes rfl rfl
